import Mathlib

/-!
# WaveWatch surf-conditions pipeline — verification development

A shallow embedding, in Lean 4, of the surf-conditions scoring and caching
pipeline of `src/wavewatch/api/data_fetcher.py` (class `StormglassDataFetcher`),
together with theorems settling the specification claims about it.

Modelling conventions:
* Python floats are modelled as `ℚ`.  `round(x, d)` is modelled by `roundTo d`
  (round half away from zero is Python's decimal behaviour only at exact ties,
  which never occur in any value reached by these theorems; we use
  round-half-up via `Rat.floor`).
* Python's `'N/A'` sentinel for a missing numeric reading is modelled by
  `Option ℚ` (`none` = `'N/A'`).
* Dictionaries keyed by strings are association lists; Python `dict` lookup is
  `List.find?` on the key, and dict-literal duplicate keys are collapsed to
  their first occurrence (the later assignments in the source all carry the
  same value, so the collapsed table is exactly the constructed dict).
* `list.sort(key=..., reverse=True)` is a stable descending sort; it is
  modelled by `List.insertionSort` with the relation `b.score ≤ a.score`,
  which is the stable sort for that preorder.
* For the error-handling claim the relevant code is re-embedded over a JSON
  value type with explicit Python-exception outcomes, so that the behaviour of
  the `try/except` clauses on malformed payloads can be stated exactly.
-/

-- `Rat.ofScientific` and the `Rat` arithmetic in Batteries are `@[irreducible]`,
-- which blocks `decide`/`rfl` evaluation of concrete rational arithmetic.
-- Restore the default reducibility for this verification development.
attribute [local semireducible] Rat.ofScientific Rat.mul Rat.inv Rat.add Rat.sub

namespace WaveWatch

/-- Python's `round(q, d)` on the exact rational `q`: scale by `10^d`, round to
the nearest integer, and scale back.  (Half-way ties round up here; no value
reached in this development is a tie, so the tie-break never matters.) -/
def roundTo (d : ℕ) (q : ℚ) : ℚ := (Rat.floor (q * 10 ^ d + 1/2) : ℚ) / 10 ^ d

/-- Python's `str.lower()` (the beach names involved are ASCII). -/
def pyLower (s : String) : String := ⟨s.data.map Char.toLower⟩

/-- Python's `str.strip()`: drop leading and trailing whitespace. -/
def pyStrip (s : String) : String :=
  ⟨((s.data.dropWhile Char.isWhitespace).reverse.dropWhile Char.isWhitespace).reverse⟩

/-- Character-list substring test: does `n` occur contiguously inside the
second list?  (Python's `in` on strings.) -/
def charsIn : List Char → List Char → Bool
  | n, [] => n.isPrefixOf []
  | n, c :: t => n.isPrefixOf (c :: t) || charsIn n t

/-- Python's `needle in hay` on strings. -/
def strIn (needle hay : String) : Bool := charsIn needle.data hay.data

/-- The static gazetteer `self.beach_coordinates` (source lines 57–115):
name → (latitude, longitude).  The Python dict literal repeats several keys
with identical values; a dict collapses them to the first occurrence, which is
what this list records. -/
def beach_coordinates : List (String × ℚ × ℚ) := [
  ("pleasure point", 36.9514, -122.0256),
  ("malibu", 34.0259, -118.7798),
  ("pipeline", 21.6611, -158.0536),
  ("trestles", 33.3703, -117.5681),
  ("mavericks", 37.4897, -122.4993),
  ("huntington beach", 33.6595, -117.9988),
  ("venice beach", 33.9850, -118.4695),
  ("manhattan beach", 33.8847, -118.4109),
  ("hermosa beach", 33.8622, -118.3991),
  ("redondo beach", 33.8492, -118.3881),
  ("el segundo", 33.9192, -118.4165),
  ("torrance beach", 33.8036, -118.3931),
  ("palos verdes", 33.7444, -118.3878),
  ("rancho palos verdes", 33.7444, -118.3878),
  ("san onofre", 33.3703, -117.5681),
  ("doheny", 33.4625, -117.7142),
  ("salt creek", 33.4625, -117.7142),
  ("laguna beach", 33.5427, -117.7854),
  ("newport beach", 33.6189, -117.9298),
  ("seal beach", 33.7414, -118.1048),
  ("long beach", 33.7701, -118.1937),
  ("sunset beach", 33.7167, -118.0833),
  ("bolsa chica", 33.7414, -118.1048),
  ("huntington state beach", 33.6595, -117.9988),
  ("crystal cove", 33.5427, -117.7854),
  ("corona del mar", 33.6189, -117.9298),
  ("balboa", 33.6189, -117.9298),
  ("newport pier", 33.6189, -117.9298),
  ("blackies", 33.6189, -117.9298),
  ("the wedge", 33.6189, -117.9298),
  ("doheny state beach", 33.4625, -117.7142),
  ("san clemente", 33.3703, -117.5681),
  ("san onofre state beach", 33.3703, -117.5681),
  ("trails", 33.3703, -117.5681),
  ("old man's", 33.3703, -117.5681),
  ("church", 33.3703, -117.5681),
  ("middles", 33.3703, -117.5681),
  ("cottons", 33.3703, -117.5681),
  ("upper trestles", 33.3703, -117.5681),
  ("lower trestles", 33.3703, -117.5681),
  ("uppers", 33.3703, -117.5681),
  ("lowers", 33.3703, -117.5681),
  ("scripps", 32.8667, -117.2500),
  ("tourmaline", 32.8000, -117.2667)
]

/-- `StormglassDataFetcher._get_beach_coordinates` (lines 135–155): lowercase
and strip the name, try an exact dict lookup first, then the first gazetteer
entry (in iteration order) where either string contains the other. -/
def getBeachCoordinates (beach_name : String) : Option (ℚ × ℚ) :=
  let beach_key := pyStrip (pyLower beach_name)
  match beach_coordinates.find? (fun kv => kv.1 == beach_key) with
  | some kv => some kv.2
  | none =>
    (beach_coordinates.find? (fun kv => strIn beach_key kv.1 || strIn kv.1 beach_key)).map
      (fun kv => kv.2)

/-! ## JSON values

Raw upstream payloads and cached data are arbitrary JSON; this type carries
them opaquely through the cache and, in the exception model below, lets
malformed payload shapes be expressed. -/

/-- A JSON value (Python object as produced by `json.load` / `response.json()`). -/
inductive Json where
  | null
  | str (s : String)
  | num (q : ℚ)
  | bool (b : Bool)
  | arr (elems : List Json)
  | obj (fields : List (String × Json))

/-! ## Observation cache

`_load_cache` (lines 117–125) reads `surf_data_cache.json`, treating a missing
file (`FileNotFoundError` / `os.path.exists` false) or undecodable content
(`json.JSONDecodeError`) as the empty dict `{}`.  `fetch_surf_data`
(lines 244–261) keys the cache by coordinates plus an optional date suffix
(`f"{lat},{lng}"` + `f"_{target_date}"`); since Python's float/str formatting
is injective on the values involved, the key is modelled structurally as the
triple `(lat, lng, target_date)`. -/

/-- Cache key: coordinates plus optional date label.  An absent date never
collides with a dated key (in Python, no `_` suffix vs a `_YYYY-MM-DD` one). -/
abbrev CacheKey := ℚ × ℚ × Option String

/-- One cache slot: `{'data': ..., 'tide_data': ..., 'timestamp': ...}`. -/
structure CacheEntry where
  data : Json
  tide_data : Json
  timestamp : ℚ

/-- The cache dict held in `surf_data_cache.json`. -/
abbrev CacheStore := List (CacheKey × CacheEntry)

/-- State of the backing file as `_load_cache` can encounter it. -/
inductive CacheFile where
  | absent
  | corrupt
  | stored (store : CacheStore)

/-- `_load_cache` (lines 117–125): a missing or undecodable file is the empty
cache, never an error. -/
def loadCache : CacheFile → CacheStore
  | .stored s => s
  | .absent => []
  | .corrupt => []

/-- Python dict assignment `cache[cache_key] = entry`: replace the slot if the
key is present, otherwise append it. -/
def storePut (store : CacheStore) (k : CacheKey) (e : CacheEntry) : CacheStore :=
  if store.any (fun kv => decide (kv.1 = k)) then
    store.map (fun kv => if kv.1 = k then (k, e) else kv)
  else
    store ++ [(k, e)]

/-- The cache write performed after a successful fetch (lines 303–309):
load the whole store, update the one key, rewrite the whole file. -/
def cachePut (file : CacheFile) (k : CacheKey) (e : CacheEntry) : CacheFile :=
  .stored (storePut (loadCache file) k e)

/-- The cache read in `fetch_surf_data` (lines 244–261): a present key whose
entry is younger than `cache_expiry = 86400` seconds is a hit; anything else
is a miss. -/
def cacheGet (file : CacheFile) (k : CacheKey) (now : ℚ) : Option CacheEntry :=
  match (loadCache file).find? (fun kv => decide (kv.1 = k)) with
  | some kv => if now - kv.2.timestamp < 86400 then some kv.2 else none
  | none => none

/-! ## `fetch_surf_data` (lines 221–337)

The outbound HTTP call and the NOAA tide call are collaborators; their
outcomes are inputs of the model.  The returned pair is (result, cache file
after the call) — `_save_cache` rewrites the file on the fresh-fetch path. -/

/-- Outcome of the single Stormglass HTTP request. -/
inductive ApiOutcome where
  | success (data : Json)
  | httpError (status : ℕ) (body : String)
  | networkError (msg : String)
  | unexpectedError (msg : String)

/-- The success dictionary returned by `fetch_surf_data`. -/
structure SurfData where
  beach_name : String
  lat : ℚ
  lng : ℚ
  data : Json
  tide_data : Json
  cached : Bool
  timestamp : ℚ

/-- The error dictionary every operation returns on failure: a message plus
the identifying beach name and, when known, coordinates. -/
structure ErrPayload where
  error : String
  beach_name : String
  coords : Option (ℚ × ℚ)

/-- Error message of lines 238–241. -/
def beachNotFoundMsg (beach_name : String) : String :=
  s!"Beach \"{beach_name}\" not found in database. Please provide coordinates."

/-- `StormglassDataFetcher.fetch_surf_data`.  `file`/`now` are the cache file
and clock at call time, `api` the Stormglass outcome and `noaaTide` the
`_get_noaa_tide_data` result (both only consulted on a cache miss). -/
def fetch_surf_data (file : CacheFile) (now : ℚ) (api : ApiOutcome) (noaaTide : Json)
    (beach_name : String) (lat lng : Option ℚ) (target_date : Option String) :
    Except ErrPayload SurfData × CacheFile :=
  -- lines 234–242: resolve coordinates when either is missing
  match (match lat, lng with
         | some la, some ln => some (la, ln)
         | _, _ => getBeachCoordinates beach_name) with
  | none => (.error ⟨beachNotFoundMsg beach_name, beach_name, none⟩, file)
  | some (la, ln) =>
    -- lines 244–261: cache check
    let key : CacheKey := (la, ln, target_date)
    match cacheGet file key now with
    | some e => (.ok ⟨beach_name, la, ln, e.data, e.tide_data, true, e.timestamp⟩, file)
    | none =>
      -- lines 263–337: single API call, tide fetch, cache write-through
      match api with
      | .success data =>
        (.ok ⟨beach_name, la, ln, data, noaaTide, false, now⟩,
         cachePut file key ⟨data, noaaTide, now⟩)
      | .httpError status body =>
        (.error ⟨s!"API request failed with status {status}: {body}", beach_name,
                 some (la, ln)⟩, file)
      | .networkError m =>
        (.error ⟨s!"Network error: {m}", beach_name, some (la, ln)⟩, file)
      | .unexpectedError m =>
        (.error ⟨s!"Unexpected error: {m}", beach_name, some (la, ln)⟩, file)

/-! ## NOAA tide series (`_get_noaa_tide_data`, lines 157–219)

On success the station samples (metres, hourly) are converted to the list of
`{'time': iso, 'tide': round(metres * 3.28084, 2)}` records. -/

/-- One converted tide sample. -/
structure TideEntry where
  time : String
  tide : ℚ
  deriving DecidableEq

/-- Lines 201–210: convert each `(iso_time, metres)` station sample to feet,
rounded to 2 decimals. -/
def noaaTideConditions (samples : List (String × ℚ)) : List TideEntry :=
  samples.map (fun p => ⟨p.1, roundTo 2 (p.2 * 3.28084)⟩)

/-! ## Condition normalizer (`get_hourly_conditions` loop body, lines 361–410)

A raw hour is the provider-tagged record with each parameter's `'noaa'`
reading, `none` standing for the `'N/A'` sentinel.  All readings are numeric
here; the JSON-level model further below drops that assumption. -/

/-- One raw upstream hour (`hour_data`), restricted to its `'noaa'` values. -/
structure RawHour where
  time : Option String
  waveHeight : Option ℚ
  waveDirection : Option ℚ
  wavePeriod : Option ℚ
  windSpeed : Option ℚ
  windDirection : Option ℚ
  waterTemperature : Option ℚ
  airTemperature : Option ℚ
  pressure : Option ℚ
  humidity : Option ℚ
  visibility : Option ℚ
  cloudCover : Option ℚ
  precipitation : Option ℚ
  seaLevel : Option ℚ
  deriving DecidableEq

/-- A raw hour with every reading unavailable, for building concrete inputs. -/
def emptyRawHour : RawHour :=
  ⟨none, none, none, none, none, none, none, none, none, none, none, none, none, none⟩

/-- One normalized (imperial-unit) hour of the `hourly_conditions` output. -/
structure NormalizedHour where
  time : Option String
  wave_height : Option ℚ
  wave_direction : Option ℚ
  wave_period : Option ℚ
  wind_speed : Option ℚ
  wind_direction : Option ℚ
  water_temperature : Option ℚ
  air_temperature : Option ℚ
  pressure : Option ℚ
  humidity : Option ℚ
  visibility : Option ℚ
  cloud_cover : Option ℚ
  precipitation : Option ℚ
  tide : Option ℚ
  deriving DecidableEq

/-- Tide value of one target hour (lines 378–393): the first NOAA tide sample
whose timestamp string equals the hour's (`hour_data.get('time', '')`), else
the hour's own sea level converted m → ft rounded to 1 decimal, else
unavailable.  `tideConds = none` models a tide fetch that failed (the
`'tide_conditions'` key absent from `result['tide_data']`). -/
def tideForHour (tideConds : Option (List TideEntry)) (hourTime : String)
    (seaLevel : Option ℚ) : Option ℚ :=
  match (match tideConds with
         | some entries => (entries.find? (fun e => e.time == hourTime)).map (fun e => e.tide)
         | none => none) with
  | some t => some t
  | none => seaLevel.map (fun m => roundTo 1 (m * 3.28084))

/-- Lines 361–410: unit conversion of one raw hour.  Present readings are
converted and rounded to 1 decimal; direction, period, pressure, humidity,
cloud cover and precipitation pass through; the `'N/A'` sentinel propagates. -/
def normalizeHour (tideConds : Option (List TideEntry)) (h : RawHour) : NormalizedHour where
  time := h.time
  wave_height := h.waveHeight.map (fun m => roundTo 1 (m * 3.28084))
  wave_direction := h.waveDirection
  wave_period := h.wavePeriod
  wind_speed := h.windSpeed.map (fun v => roundTo 1 (v * 2.23694))
  wind_direction := h.windDirection
  water_temperature := h.waterTemperature.map (fun c => roundTo 1 (c * 9/5 + 32))
  air_temperature := h.airTemperature.map (fun c => roundTo 1 (c * 9/5 + 32))
  pressure := h.pressure
  humidity := h.humidity
  visibility := h.visibility.map (fun k => roundTo 1 (k * 0.621371))
  cloud_cover := h.cloudCover
  precipitation := h.precipitation
  tide := tideForHour tideConds (h.time.getD "") h.seaLevel

/-! ## Pipeline (`get_hourly_conditions`, `get_best_surf_times`)

`fetch_surf_data`'s dependence on the target date is abstracted as an
environment `FetchEnv`; `get_hourly_conditions` passes its own `target_date`
through to it (line 351), while `get_best_surf_times` calls
`get_hourly_conditions(beach_name, lat, lng)` with no date at all (line 440). -/

/-- A successful `fetch_surf_data` result, with its payload already split into
the pieces `get_hourly_conditions` reads: the `'hours'` list and the optional
`'tide_conditions'` series inside `'tide_data'`. -/
structure FetchedData where
  beach_name : String
  coords : ℚ × ℚ
  hours : List RawHour
  tideConds : Option (List TideEntry)
  cached : Bool
  timestamp : ℚ

/-- `fetch_surf_data` as a function of the requested target date (the beach,
coordinates, cache and upstream outcomes are all fixed inside). -/
abbrev FetchEnv := Option String → Except ErrPayload FetchedData

/-- The success dictionary of `get_hourly_conditions` (lines 412–419). -/
structure HourlyOut where
  beach_name : String
  coords : ℚ × ℚ
  cached : Bool
  timestamp : ℚ
  hourly_conditions : List NormalizedHour
  total_hours : ℕ

/-- `StormglassDataFetcher.get_hourly_conditions` (lines 339–425): fetch (with
the caller's `target_date`), propagate an error result unchanged, otherwise
normalize every hour. -/
def get_hourly_conditions (env : FetchEnv) (target_date : Option String) :
    Except ErrPayload HourlyOut :=
  match env target_date with
  | .error e => .error e
  | .ok fd =>
    let conds := fd.hours.map (normalizeHour fd.tideConds)
    .ok ⟨fd.beach_name, fd.coords, fd.cached, fd.timestamp, conds, conds.length⟩

/-- One ranked slot (lines 461–470). -/
structure Slot where
  time : Option String
  wave_height : Option ℚ
  wave_period : Option ℚ
  wind_speed : Option ℚ
  wind_direction : Option ℚ
  water_temperature : Option ℚ
  tide : Option ℚ
  score : ℚ
  deriving DecidableEq

/-- Lines 449–472: score one hour.  An unavailable wave height or wind speed
is coerced to `0` for scoring only; hours below the minimum wave height are
dropped.  `wind_score = max(0, 20 - wind)`, `wave_score = min(30, wave*10)`,
`score = wave_score + wind_score`. -/
def scoreSlot? (min_wave_height : ℚ) (h : NormalizedHour) : Option Slot :=
  let wave_height := h.wave_height.getD 0
  let wind_speed := h.wind_speed.getD 0
  if min_wave_height ≤ wave_height then
    some ⟨h.time, h.wave_height, h.wave_period, h.wind_speed, h.wind_direction,
          h.water_temperature, h.tide,
          min 30 (wave_height * 10) + max 0 (20 - wind_speed)⟩
  else
    none

/-- Lines 474–475: `best_times.sort(key=lambda x: x['score'], reverse=True)`.
Python's sort is stable; the unique stable sort for the descending-score
preorder is insertion sort with the relation `b.score ≤ a.score`. -/
def sortSlots (l : List Slot) : List Slot :=
  l.insertionSort (fun a b => b.score ≤ a.score)

/-- The ranking core of lines 446–482: qualifying slots in chronological
order, sorted descending by score and truncated to 5, plus the count of all
qualifying hours. -/
def rankBest (min_wave_height : ℚ) (hours : List NormalizedHour) : List Slot × ℕ :=
  let best_times := hours.filterMap (scoreSlot? min_wave_height)
  ((sortSlots best_times).take 5, best_times.length)

/-- The success dictionary of `get_best_surf_times` (lines 477–484). -/
structure BestOut where
  beach_name : String
  coords : ℚ × ℚ
  cached : Bool
  best_times : List Slot
  total_good_hours : ℕ
  min_wave_height : ℚ

/-- `StormglassDataFetcher.get_best_surf_times` (lines 427–490).  Note that
line 440 calls `self.get_hourly_conditions(beach_name, lat, lng)` — its own
`target_date` parameter is not forwarded. -/
def get_best_surf_times (env : FetchEnv) (min_wave_height : ℚ)
    (_target_date : Option String) : Except ErrPayload BestOut :=
  match get_hourly_conditions env none with
  | .error e => .error e
  | .ok r =>
    let (top, total) := rankBest min_wave_height r.hourly_conditions
    .ok ⟨r.beach_name, r.coords, r.cached, top, total, min_wave_height⟩

/-- The spec's two-hour ranking example, first hour: 1.0 ft waves, 5 mph
wind. -/
def exampleHour1 : NormalizedHour :=
  ⟨none, some 1, none, none, some 5, none, none, none, none, none, none, none, none, none⟩

/-- The spec's two-hour ranking example, second hour: 3.0 ft waves, 2 mph
wind. -/
def exampleHour2 : NormalizedHour :=
  ⟨none, some 3, none, none, some 2, none, none, none, none, none, none, none, none, none⟩

/-- The single ranked slot the example produces:
`score = min(30, 30) + max(0, 18) = 48`. -/
def exampleSlot : Slot := ⟨none, some 3, none, some 2, none, none, none, 48⟩

/-! ## Exception-level model of the `get_hourly_conditions` body

The typed model above assumes every reading is numeric.  The source makes no
such assumption: the payload is arbitrary JSON, and the `try` block at
lines 356–425 catches only `(KeyError, IndexError, TypeError)`.  To settle the
error-propagation claim exactly, the loop body is re-embedded over `Json` with
explicit Python exceptions. -/

/-- The Python exception classes the embedded code can raise. -/
inductive PyExc where
  | keyError
  | indexError
  | typeError
  | valueError
  | attributeError
  deriving DecidableEq

/-- A Python evaluation: a value or a raised exception. -/
abbrev Py (α : Type) := Except PyExc α

/-- Python `==` between the values this code compares (a reading vs the
`'N/A'` sentinel string, and a tide timestamp vs an hour timestamp).  Python
equality never raises; mixed types compare unequal.  Container-vs-container
comparisons never occur on these paths (one operand is always a string), so
containers simply compare unequal here. -/
def jsonEq : Json → Json → Bool
  | .null, .null => true
  | .str a, .str b => a == b
  | .num a, .num b => a == b
  | .bool a, .bool b => a == b
  | _, _ => false

/-- Python `receiver.get(k, default)`: only dicts have `.get`; any other
receiver raises `AttributeError`. -/
def jsonGet (j : Json) (k : String) (dflt : Json) : Py Json :=
  match j with
  | .obj fields => .ok (((fields.find? (fun kv => kv.1 == k)).map (fun kv => kv.2)).getD dflt)
  | _ => .error .attributeError

/-- Python subscript `receiver[k]` with a string key: `KeyError` when a dict
lacks the key, `TypeError` on any non-dict receiver. -/
def jsonIndex (j : Json) (k : String) : Py Json :=
  match j with
  | .obj fields =>
    match fields.find? (fun kv => kv.1 == k) with
    | some kv => .ok kv.2
    | none => .error .keyError
  | _ => .error .typeError

/-- Python membership `k in receiver` for a string `k`: key test on dicts,
substring test on strings, element-equality scan on lists (a non-string
element never equals a string), `TypeError` otherwise. -/
def pyIn (k : String) (j : Json) : Py Bool :=
  match j with
  | .obj fields => .ok (fields.any (fun kv => kv.1 == k))
  | .str s => .ok (strIn k s)
  | .arr elems => .ok (elems.any (fun e => jsonEq e (.str k)))
  | _ => .error .typeError

/-- Decimal-string parser backing the `float(...)` model: optional sign,
digits, optional fraction.  (Python's `float` accepts more shapes — exponents,
`inf`, whitespace — but all this development needs is that a non-numeric
string such as `"abc"` is rejected with `ValueError`.) -/
def parseDecimal? (s : String) : Option ℚ :=
  let (sign, cs) : ℚ × List Char :=
    match s.data with
    | '-' :: rest => (-1, rest)
    | '+' :: rest => (1, rest)
    | cs => (1, cs)
  let intPart := cs.takeWhile Char.isDigit
  let rest := cs.dropWhile Char.isDigit
  let natVal : List Char → ℚ := fun ds =>
    (ds.foldl (fun a c => a * 10 + (c.toNat - '0'.toNat)) 0 : ℕ)
  if intPart.isEmpty then none
  else
    match rest with
    | [] => some (sign * natVal intPart)
    | '.' :: frac =>
      if frac.all Char.isDigit ∧ ¬frac.isEmpty then
        some (sign * (natVal intPart + natVal frac / 10 ^ frac.length))
      else none
    | _ => none

/-- Python `float(x)`: numbers pass through, numeric strings parse, any other
string raises `ValueError`, non-scalar values raise `TypeError`. -/
def pyFloat (j : Json) : Py ℚ :=
  match j with
  | .num q => .ok q
  | .bool b => .ok (if b then 1 else 0)
  | .str s =>
    match parseDecimal? s with
    | some q => .ok q
    | none => .error .valueError
  | _ => .error .typeError

/-- One converted field of the loop body, e.g. lines 363–364:
`x = hour_data.get(param, {}).get('noaa', 'N/A')` then
`round(float(x) * factor, 1) if x != 'N/A' else 'N/A'`. -/
def convertedField (hour : Json) (param : String) (conv : ℚ → ℚ) : Py Json := do
  let outer ← jsonGet hour param (.obj [])
  let raw ← jsonGet outer "noaa" (.str "N/A")
  if jsonEq raw (.str "N/A") then
    pure (.str "N/A")
  else do
    let v ← pyFloat raw
    pure (.num (conv v))

/-- A passed-through field, e.g. line 398:
`hour_data.get(param, {}).get('noaa', 'N/A')`. -/
def passthroughField (hour : Json) (param : String) : Py Json := do
  let outer ← jsonGet hour param (.obj [])
  jsonGet outer "noaa" (.str "N/A")

/-- The `for tide_entry in ...: if tide_entry['time'] == hour_time` scan of
lines 383–386.  Iterating a non-list here is approximated by `TypeError` (for
the actual non-list iterables — str, dict — the loop body's subscript raises
on the first element anyway). -/
def findTideEntry : List Json → Json → Py Json
  | [], _ => .ok (.str "N/A")
  | e :: rest, hourTime => do
    let t ← jsonIndex e "time"
    if jsonEq t hourTime then jsonIndex e "tide" else findTideEntry rest hourTime

/-- Lines 378–393: the tide field of one hour — NOAA series match first, then
the hour's own `seaLevel`, else `'N/A'`.  (`'tide_data' in result` is always
true: both return paths of `fetch_surf_data` put the key there.) -/
def tideFieldPy (tide_data : Json) (hour : Json) : Py Json := do
  let hasConds ← pyIn "tide_conditions" tide_data
  let tide0 ←
    if hasConds then do
      let conds ← jsonIndex tide_data "tide_conditions"
      let hourTime ← jsonGet hour "time" (.str "")
      match conds with
      | .arr entries => findTideEntry entries hourTime
      | _ => .error .typeError
    else
      pure (.str "N/A")
  if jsonEq tide0 (.str "N/A") then do
    let outer ← jsonGet hour "seaLevel" (.obj [])
    let raw ← jsonGet outer "noaa" (.str "N/A")
    if jsonEq raw (.str "N/A") then
      pure (.str "N/A")
    else do
      let v ← pyFloat raw
      pure (.num (roundTo 1 (v * 3.28084)))
  else
    pure tide0

/-- The whole loop body (lines 361–410) for one raw hour, in source order of
evaluation, ending with the output dict literal of lines 395–410. -/
def normalizeHourPy (tide_data : Json) (hour : Json) : Py Json := do
  let wave ← convertedField hour "waveHeight" (fun m => roundTo 1 (m * 3.28084))
  let wind ← convertedField hour "windSpeed" (fun v => roundTo 1 (v * 2.23694))
  let water ← convertedField hour "waterTemperature" (fun c => roundTo 1 (c * 9/5 + 32))
  let air ← convertedField hour "airTemperature" (fun c => roundTo 1 (c * 9/5 + 32))
  let vis ← convertedField hour "visibility" (fun k => roundTo 1 (k * 0.621371))
  let tide ← tideFieldPy tide_data hour
  let time ← jsonGet hour "time" (.str "N/A")
  let waveDir ← passthroughField hour "waveDirection"
  let wavePer ← passthroughField hour "wavePeriod"
  let windDir ← passthroughField hour "windDirection"
  let press ← passthroughField hour "pressure"
  let humid ← passthroughField hour "humidity"
  let cloud ← passthroughField hour "cloudCover"
  let precip ← passthroughField hour "precipitation"
  pure (.obj [("time", time), ("wave_height", wave), ("wave_direction", waveDir),
              ("wave_period", wavePer), ("wind_speed", wind), ("wind_direction", windDir),
              ("water_temperature", water), ("air_temperature", air), ("pressure", press),
              ("humidity", humid), ("visibility", vis), ("cloud_cover", cloud),
              ("precipitation", precip), ("tide", tide)])

/-- The `for hour_data in hours` accumulation (lines 360–410). -/
def hoursLoopPy (tide_data : Json) : List Json → Py (List Json)
  | [] => .ok []
  | h :: rest => do
    let n ← normalizeHourPy tide_data h
    let ns ← hoursLoopPy tide_data rest
    pure (n :: ns)

/-- The `try` block of lines 356–419 applied to a fetched payload:
`hours = data.get('hours', [])` then the normalization loop.  Iterating a
non-list `hours` is approximated by `TypeError`. -/
def hourlyBodyPy (data tide_data : Json) : Py (List Json) := do
  let hours ←
    match data with
    | .obj fields => pure (((fields.find? (fun kv => kv.1 == "hours")).map
        (fun kv => kv.2)).getD (.arr []))
    | _ => .error .attributeError
  match hours with
  | .arr hlist => hoursLoopPy tide_data hlist
  | _ => .error .typeError

/-- `get_hourly_conditions` on a successful fetch, at the JSON level: the
`except (KeyError, IndexError, TypeError)` clause of line 420 turns exactly
those three exceptions into the parse-error dictionary; any other exception —
in particular `ValueError` from `float(...)` and `AttributeError` from
`.get(...)` on a non-dict — propagates to the caller. -/
def get_hourly_conditions_py (beach_name : String) (lat lng : ℚ)
    (data tide_data : Json) : Py Json :=
  match hourlyBodyPy data tide_data with
  | .ok conds =>
    .ok (.obj [("beach_name", .str beach_name),
               ("coordinates", .obj [("lat", .num lat), ("lng", .num lng)]),
               ("hourly_conditions", .arr conds),
               ("total_hours", .num conds.length)])
  | .error e =>
    match e with
    | .keyError | .indexError | .typeError =>
      .ok (.obj [("error", .str "Error parsing API response"),
                 ("beach_name", .str beach_name),
                 ("coordinates", .obj [("lat", .num lat), ("lng", .num lng)])])
    | .valueError => .error .valueError
    | .attributeError => .error .attributeError

/-! ## Helper lemmas -/

instance : IsTotal Slot (fun a b => b.score ≤ a.score) :=
  ⟨fun a b => le_total b.score a.score⟩

instance : IsTrans Slot (fun a b => b.score ≤ a.score) :=
  ⟨fun _ _ _ hab hbc => le_trans hbc hab⟩

/-- `storePut` really is dict assignment: looking the key up afterwards finds
the freshly stored entry. -/
lemma find?_storePut (store : CacheStore) (k : CacheKey) (e : CacheEntry) :
    (storePut store k e).find? (fun kv => decide (kv.1 = k)) = some (k, e) := by
  induction store with
  | nil => simp [storePut, List.find?]
  | cons kv t ih =>
    by_cases h1 : kv.1 = k
    · simp [storePut, List.any_cons, h1, List.find?]
    · by_cases h2 : t.any (fun kv => decide (kv.1 = k))
      · have hput : storePut t k e = t.map (fun kv => if kv.1 = k then (k, e) else kv) := by
          simp [storePut, h2]
        have hstep : storePut (kv :: t) k e =
            kv :: t.map (fun kv => if kv.1 = k then (k, e) else kv) := by
          simp [storePut, List.any_cons, h1, h2]
        rw [hstep, List.find?_cons_of_neg _ (by simp [h1]), ← hput, ih]
      · have hput : storePut t k e = t ++ [(k, e)] := by
          simp [storePut, h2]
        have hstep : storePut (kv :: t) k e = kv :: (t ++ [(k, e)]) := by
          simp [storePut, List.any_cons, h1, h2]
        rw [hstep, List.find?_cons_of_neg _ (by simp [h1]), ← hput, ih]

/-- Inverting `scoreSlot?`: a produced slot qualifies and carries the scoring
formula over its own stored fields. -/
lemma scoreSlot?_props {m : ℚ} {h : NormalizedHour} {s : Slot}
    (hs : scoreSlot? m h = some s) :
    m ≤ s.wave_height.getD 0 ∧
      s.score = min 30 (s.wave_height.getD 0 * 10) + max 0 (20 - s.wind_speed.getD 0) := by
  simp only [scoreSlot?] at hs
  split_ifs at hs with hq
  · cases hs
    exact ⟨hq, rfl⟩

/-- Sorting permutes, so membership is unchanged. -/
lemma mem_sortSlots {x : Slot} {l : List Slot} : x ∈ sortSlots l ↔ x ∈ l :=
  (List.perm_insertionSort _ l).mem_iff

/-- Sorting preserves length. -/
lemma length_sortSlots (l : List Slot) : (sortSlots l).length = l.length :=
  (List.perm_insertionSort _ l).length_eq

/-- The sorted list is descending in score. -/
lemma pairwise_sortSlots (l : List Slot) :
    List.Pairwise (fun a b => b.score ≤ a.score) (sortSlots l) :=
  List.sorted_insertionSort _ l

/-- Stability, one insertion step: inserting `x` keeps the sublist of slots of
any fixed score `s` intact, with `x` in front exactly when it has score `s`
(it is placed before every element of score `≤ x.score`). -/
lemma filter_orderedInsert (s : ℚ) (x : Slot) (l : List Slot) :
    (List.orderedInsert (fun a b => b.score ≤ a.score) x l).filter
        (fun y => decide (y.score = s)) =
      if x.score = s then
        x :: l.filter (fun y => decide (y.score = s))
      else
        l.filter (fun y => decide (y.score = s)) := by
  induction l with
  | nil =>
    simp only [List.orderedInsert_nil, List.filter]
    by_cases hx : x.score = s <;> simp [hx]
  | cons y t ih =>
    by_cases hxy : y.score ≤ x.score
    · rw [List.orderedInsert, if_pos hxy]
      by_cases hx : x.score = s <;> simp [List.filter_cons, hx]
    · rw [List.orderedInsert, if_neg hxy]
      by_cases hy : y.score = s
      · have hx : ¬ x.score = s := fun hx => hxy (by rw [hx, hy])
        simp [List.filter_cons, hy, hx, ih]
      · simp [List.filter_cons, hy, ih]

/-- Stability of the ranking sort: for every score value, the slots carrying
that score appear in the sorted list exactly in their original order. -/
lemma filter_sortSlots (s : ℚ) (l : List Slot) :
    (sortSlots l).filter (fun y => decide (y.score = s)) =
      l.filter (fun y => decide (y.score = s)) := by
  induction l with
  | nil => rfl
  | cons x t ih =>
    show (List.orderedInsert _ x (sortSlots t)).filter _ = _
    rw [filter_orderedInsert]
    by_cases hx : x.score = s <;> simp [List.filter_cons, hx, ih]

/-! ## Claim theorems -/

/-- **C3, counterexample.**  The claim says a present visibility reading `v`
normalizes to `round(v * 3.28084, 1)` (metres → feet).  At `v = 1` the code
yields `round(1 * 0.621371, 1) = 0.6`, not `round(1 * 3.28084, 1) = 3.3`. -/
theorem C3_visibility_not_m_to_ft :
    (normalizeHour none { emptyRawHour with visibility := some 1 }).visibility ≠
      some (roundTo 1 (1 * 3.28084)) := by
  decide

/-- **C3, amended.**  For every raw hour with a present visibility reading
`v`, the normalized record's visibility equals `round(v * 0.621371, 1)`:
`v` kilometres converted to statute miles, rounded to 1 decimal. -/
theorem C3_visibility_km_to_miles :
    ∀ (tc : Option (List TideEntry)) (h : RawHour) (v : ℚ),
      h.visibility = some v →
      (normalizeHour tc h).visibility = some (roundTo 1 (v * 0.621371)) := by
  intro tc h v hv
  simp [normalizeHour, hv]

/-- Witness for `C3_visibility_km_to_miles` at visibility = 1 km. -/
theorem C3_visibility_km_to_miles_witness :
    ({ emptyRawHour with visibility := some 1 } : RawHour).visibility = some 1 ∧
      (normalizeHour none { emptyRawHour with visibility := some 1 }).visibility = some 0.6 := by
  refine ⟨rfl, ?_⟩
  rw [C3_visibility_km_to_miles none { emptyRawHour with visibility := some 1 } 1 rfl]
  decide

/-- **C7.**  Normalization of present metric readings is the exact arithmetic
the spec fixes: 1.0 m wave height becomes 3.3 ft, 0 °C water temperature
becomes 32.0 °F, and a wind speed `v` m/s becomes `round(v * 2.23694, 1)`
mph. -/
theorem C7_unit_conversions :
    ∀ (tc : Option (List TideEntry)) (h : RawHour) (v : ℚ),
      (h.waveHeight = some 1 → (normalizeHour tc h).wave_height = some 3.3) ∧
      (h.waterTemperature = some 0 →
        (normalizeHour tc h).water_temperature = some 32.0) ∧
      (h.windSpeed = some v →
        (normalizeHour tc h).wind_speed = some (roundTo 1 (v * 2.23694))) := by
  intro tc h v
  refine ⟨fun hw => ?_, fun hw => ?_, fun hw => ?_⟩ <;> simp [normalizeHour, hw] <;> decide

/-- Witness for `C7_unit_conversions`: all three hypotheses discharged on a
concrete raw hour (1.0 m waves, 0 °C water, 2.2 m/s wind → 4.9 mph). -/
theorem C7_unit_conversions_witness :
    (normalizeHour none
        { emptyRawHour with waveHeight := some 1, waterTemperature := some 0,
                            windSpeed := some 2.2 }).wave_height = some 3.3 ∧
      (normalizeHour none
        { emptyRawHour with waveHeight := some 1, waterTemperature := some 0,
                            windSpeed := some 2.2 }).water_temperature = some 32.0 ∧
      (normalizeHour none
        { emptyRawHour with waveHeight := some 1, waterTemperature := some 0,
                            windSpeed := some 2.2 }).wind_speed = some 4.9 := by
  refine ⟨(C7_unit_conversions none _ 2.2).1 rfl, (C7_unit_conversions none _ 2.2).2.1 rfl, ?_⟩
  rw [(C7_unit_conversions none _ 2.2).2.2 rfl]
  decide

/-- **C8 (code bug).**  The claim says no exception ever propagates out of a
public operation, even on a malformed upstream payload.  But the `except`
clause at line 420 lists only `(KeyError, IndexError, TypeError)`: a payload
hour whose `waveHeight.noaa` is the non-numeric string `"abc"` (≠ `'N/A'`)
reaches `float("abc")`, which raises `ValueError` — uncaught, so it escapes
`get_hourly_conditions` instead of becoming an error dictionary. -/
theorem C8_uncaught_value_error :
    get_hourly_conditions_py "malibu" 34.0259 (-118.7798)
        (.obj [("hours", .arr [.obj [("waveHeight", .obj [("noaa", .str "abc")])]])])
        (.obj []) = .error .valueError := by
  rfl

/-- **C9.**  The ranking sort is stable: for every score value, the slots
carrying that score appear in the sorted output exactly in their original
(chronological) order — in particular any two hours with identical computed
scores keep their relative order. -/
theorem C9_sort_stability :
    ∀ (l : List Slot) (s : ℚ),
      (sortSlots l).filter (fun y => decide (y.score = s)) =
        l.filter (fun y => decide (y.score = s)) := by
  intro l s
  exact filter_sortSlots s l

/-- **C5.**  The tide field of each target hour: the NOAA samples are rounded
to 2 decimals from metres × 3.28084; the hour takes the first sample whose
timestamp string equals its own, else its own sea level (m → ft, 1 decimal),
else the unavailable sentinel — and the normalizer wires exactly this into
each record. -/
theorem C5_tide_merge :
    ∀ (samples : List (String × ℚ)) (entries : List TideEntry) (t : String)
      (sea : Option ℚ) (e : TideEntry),
      (noaaTideConditions samples =
        samples.map (fun p => ⟨p.1, roundTo 2 (p.2 * 3.28084)⟩)) ∧
      (entries.find? (fun x => x.time == t) = some e →
        tideForHour (some entries) t sea = some e.tide) ∧
      (entries.find? (fun x => x.time == t) = none →
        tideForHour (some entries) t sea = sea.map (fun m => roundTo 1 (m * 3.28084))) ∧
      tideForHour none t sea = sea.map (fun m => roundTo 1 (m * 3.28084)) ∧
      (∀ tc h, (normalizeHour tc h).tide = tideForHour tc (h.time.getD "") h.seaLevel) := by
  intro samples entries t sea e
  refine ⟨rfl, fun hf => ?_, fun hf => ?_, rfl, fun tc h => rfl⟩
  · simp [tideForHour, hf]
  · simp [tideForHour, hf]

/-- Witness for `C5_tide_merge`: a concrete series with a matching timestamp
(hit), and the same hour against an empty series (sea-level fallback). -/
theorem C5_tide_merge_witness :
    ([⟨"2024-01-01T00:00:00+00:00", 2.13⟩] : List TideEntry).find?
        (fun x => x.time == "2024-01-01T00:00:00+00:00") =
          some ⟨"2024-01-01T00:00:00+00:00", 2.13⟩ ∧
      tideForHour (some [⟨"2024-01-01T00:00:00+00:00", 2.13⟩])
        "2024-01-01T00:00:00+00:00" (some 1) = some 2.13 ∧
      tideForHour (some []) "2024-01-01T00:00:00+00:00" (some 1) = some 3.3 := by
  refine ⟨by decide, ?_, ?_⟩
  · exact (C5_tide_merge [] [⟨"2024-01-01T00:00:00+00:00", 2.13⟩]
      "2024-01-01T00:00:00+00:00" (some 1) ⟨"2024-01-01T00:00:00+00:00", 2.13⟩).2.1
      (by decide)
  · rw [(C5_tide_merge [] [] "2024-01-01T00:00:00+00:00" (some 1)
      ⟨"2024-01-01T00:00:00+00:00", 2.13⟩).2.2.1 (by decide)]
    decide

/-- **C2.**  `get_best_surf_times` ignores its `target_date` parameter: for
every fetch environment it returns exactly what it returns for
`target_date = None`, because line 440 calls `get_hourly_conditions` without
forwarding the date.  (Second conjunct: the date is not vacuous — there are
environments on which `get_hourly_conditions` itself does depend on it.) -/
theorem C2_target_date_ignored :
    (∀ (env : FetchEnv) (m : ℚ) (td : Option String),
      get_best_surf_times env m td = get_best_surf_times env m none) ∧
      ∃ (env : FetchEnv) (td : Option String),
        get_hourly_conditions env td ≠ get_hourly_conditions env none := by
  constructor
  · intro env m td
    rfl
  · refine ⟨fun td => match td with
      | some _ => .error ⟨"Network error: boom", "malibu", some (34.0259, -118.7798)⟩
      | none => .ok ⟨"malibu", (34.0259, -118.7798), [], none, false, 0⟩,
      some "2024-01-01", ?_⟩
    intro hEq
    simp [get_hourly_conditions] at hEq

/-- **C4.**  Cache behaviour: an entry written at `T` is a hit (returning the
stored payload and tide data) for a read at `T'` exactly when
`T' - T < 86400`; a missing key, a missing file, or an undecodable file is a
miss, never an error; and on a miss `fetch_surf_data` performs the fresh
upstream fetch, returning the new payload with `cached = False`. -/
theorem C4_cache_expiry :
    ∀ (file : CacheFile) (k : CacheKey) (d td : Json) (T Tr : ℚ) (store : CacheStore)
      (beach : String) (la ln : ℚ) (tdate : Option String) (data noaaTide : Json),
      (Tr - T < 86400 →
        cacheGet (cachePut file k ⟨d, td, T⟩) k Tr = some ⟨d, td, T⟩) ∧
      (86400 ≤ Tr - T →
        cacheGet (cachePut file k ⟨d, td, T⟩) k Tr = none) ∧
      cacheGet .absent k Tr = none ∧
      cacheGet .corrupt k Tr = none ∧
      (store.find? (fun kv => decide (kv.1 = k)) = none →
        cacheGet (.stored store) k Tr = none) ∧
      (cacheGet file (la, ln, tdate) Tr = none →
        (fetch_surf_data file Tr (.success data) noaaTide beach (some la) (some ln)
            tdate).1 =
          .ok ⟨beach, la, ln, data, noaaTide, false, Tr⟩) := by
  intro file k d td T Tr store beach la ln tdate data noaaTide
  refine ⟨fun h => ?_, fun h => ?_, rfl, rfl, fun h => ?_, fun h => ?_⟩
  · show cacheGet (.stored (storePut (loadCache file) k ⟨d, td, T⟩)) k Tr = _
    unfold cacheGet
    rw [loadCache, find?_storePut]
    simp [h]
  · show cacheGet (.stored (storePut (loadCache file) k ⟨d, td, T⟩)) k Tr = _
    unfold cacheGet
    rw [loadCache, find?_storePut]
    simp [not_lt.mpr h]
  · unfold cacheGet
    rw [loadCache, h]
  · simp [fetch_surf_data, h]

/-- Witness for `C4_cache_expiry`: write at `T = 0`, read back at `T' = 86399`
(hit with the stored entry) and at `T' = 86400` (miss, hence a fresh fetch
with `cached = False`). -/
theorem C4_cache_expiry_witness :
    ((86399 : ℚ) - 0 < 86400 ∧
      cacheGet (cachePut .absent (34.0259, -118.7798, none) ⟨.null, .null, 0⟩)
        (34.0259, -118.7798, none) 86399 = some ⟨.null, .null, 0⟩) ∧
      ((86400 : ℚ) ≤ 86400 - 0 ∧
        cacheGet (cachePut .absent (34.0259, -118.7798, none) ⟨.null, .null, 0⟩)
          (34.0259, -118.7798, none) 86400 = none) ∧
      (cacheGet .absent (34.0259, -118.7798, none) 0 = none ∧
        (fetch_surf_data .absent 0 (.success .null) .null "malibu" (some 34.0259)
            (some (-118.7798)) none).1 =
          .ok ⟨"malibu", 34.0259, -118.7798, .null, .null, false, 0⟩) := by
  refine ⟨⟨by norm_num, ?_⟩, ⟨by norm_num, ?_⟩, rfl, ?_⟩
  · exact (C4_cache_expiry .absent (34.0259, -118.7798, none) .null .null 0 86399 []
      "malibu" 34.0259 (-118.7798) none .null .null).1 (by norm_num)
  · exact (C4_cache_expiry .absent (34.0259, -118.7798, none) .null .null 0 86400 []
      "malibu" 34.0259 (-118.7798) none .null .null).2.1 (by norm_num)
  · exact (C4_cache_expiry .absent (34.0259, -118.7798, none) .null .null 0 0 []
      "malibu" 34.0259 (-118.7798) none .null .null).2.2.2.2.2 rfl

/-- **C6.**  Every gazetteer name resolves (after lowercasing and trimming)
to exactly its tabulated coordinates, exact match taking priority over any
substring match; and when neither an exact nor a substring match succeeds,
`fetch_surf_data` without explicit coordinates returns the error asking for
them. -/
theorem C6_resolver :
    (∀ kv ∈ beach_coordinates, getBeachCoordinates kv.1 = some kv.2) ∧
      ∀ (beach : String) (file : CacheFile) (now : ℚ) (api : ApiOutcome)
        (noaaTide : Json) (td : Option String),
        getBeachCoordinates beach = none →
        (fetch_surf_data file now api noaaTide beach none none td).1 =
          .error ⟨beachNotFoundMsg beach, beach, none⟩ := by
  constructor
  · decide
  · intro beach file now api noaaTide td h
    simp [fetch_surf_data, h]

/-- Witness for `C6_resolver`: "malibu" is in the gazetteer and resolves to
its tabulated coordinates; "atlantis" matches nothing and yields the
explicit-coordinates error. -/
theorem C6_resolver_witness :
    getBeachCoordinates "malibu" = some (34.0259, -118.7798) ∧
      (fetch_surf_data .absent 0 (.success .null) .null "atlantis" none none none).1 =
        .error ⟨beachNotFoundMsg "atlantis", "atlantis", none⟩ := by
  exact ⟨C6_resolver.1 ("malibu", 34.0259, -118.7798) (by decide),
    C6_resolver.2 "atlantis" .absent 0 (.success .null) .null none (by decide)⟩

/-- **C10.**  When no hour's (0-coerced) wave height reaches the minimum,
`get_best_surf_times` succeeds with an empty `best_times` list and
`total_good_hours = 0` — not an error. -/
theorem C10_empty_ranking :
    ∀ (env : FetchEnv) (fd : FetchedData) (m : ℚ) (td : Option String),
      env none = .ok fd →
      (∀ h ∈ fd.hours, (normalizeHour fd.tideConds h).wave_height.getD 0 < m) →
      get_best_surf_times env m td =
        .ok ⟨fd.beach_name, fd.coords, fd.cached, [], 0, m⟩ := by
  intro env fd m td he hw
  have hnil : (fd.hours.map (normalizeHour fd.tideConds)).filterMap (scoreSlot? m) = [] := by
    rw [List.filterMap_eq_nil_iff]
    intro a ha
    rw [List.mem_map] at ha
    obtain ⟨h0, hh0, rfl⟩ := ha
    simp only [scoreSlot?]
    rw [if_neg (not_le.mpr (hw h0 hh0))]
  simp [get_best_surf_times, get_hourly_conditions, he, rankBest, hnil, sortSlots]

/-- Witness for `C10_empty_ranking`: a single hour of 1.0 ft waves against a
2.0 ft minimum yields the empty ranking. -/
theorem C10_empty_ranking_witness :
    ((fun _ => .ok ⟨"malibu", (34.0259, -118.7798),
        [{ emptyRawHour with waveHeight := some 0.3 }], none, false, 0⟩ : FetchEnv) none =
      .ok ⟨"malibu", (34.0259, -118.7798),
        [{ emptyRawHour with waveHeight := some 0.3 }], none, false, 0⟩) ∧
      get_best_surf_times
          (fun _ => .ok ⟨"malibu", (34.0259, -118.7798),
            [{ emptyRawHour with waveHeight := some 0.3 }], none, false, 0⟩) 2 none =
        .ok ⟨"malibu", (34.0259, -118.7798), false, [], 0, 2⟩ := by
  refine ⟨rfl, ?_⟩
  exact C10_empty_ranking
    (fun _ => .ok ⟨"malibu", (34.0259, -118.7798),
      [{ emptyRawHour with waveHeight := some 0.3 }], none, false, 0⟩)
    ⟨"malibu", (34.0259, -118.7798), [{ emptyRawHour with waveHeight := some 0.3 }],
      none, false, 0⟩
    2 none rfl (by decide)

/-- **C1.**  Whenever hourly conditions are available, `get_best_surf_times`
succeeds with a ranking in which: at most 5 slots are returned
(`length = min 5 total_good_hours`), the slots are in descending score order,
and every returned slot comes from a qualifying hour
(0-coerced wave height ≥ the minimum) scored
`min(30, wave*10) + max(0, 20 - wind)`.  On the spec's two-hour example with
`minWaveHeightFt = 2.0` the ranking core returns exactly one slot of
score 48. -/
theorem C1_ranking_correct :
    (∀ (env : FetchEnv) (fd : FetchedData) (m : ℚ) (td : Option String),
      env none = .ok fd →
      ∃ r, get_best_surf_times env m td = .ok r ∧
        r.best_times.length = min 5 r.total_good_hours ∧
        List.Pairwise (fun a b => b.score ≤ a.score) r.best_times ∧
        ∀ s ∈ r.best_times,
          m ≤ s.wave_height.getD 0 ∧
            s.score = min 30 (s.wave_height.getD 0 * 10) +
              max 0 (20 - s.wind_speed.getD 0)) ∧
      rankBest 2 [exampleHour1, exampleHour2] = ([exampleSlot], 1) := by
  constructor
  · intro env fd m td he
    have hbt : get_best_surf_times env m td =
        .ok ⟨fd.beach_name, fd.coords, fd.cached,
          (sortSlots ((fd.hours.map (normalizeHour fd.tideConds)).filterMap
            (scoreSlot? m))).take 5,
          ((fd.hours.map (normalizeHour fd.tideConds)).filterMap (scoreSlot? m)).length,
          m⟩ := by
      simp [get_best_surf_times, get_hourly_conditions, he, rankBest]
    refine ⟨_, hbt, ?_, ?_, ?_⟩
    · show ((sortSlots _).take 5).length = min 5 (List.length _)
      rw [List.length_take, length_sortSlots]
    · exact (pairwise_sortSlots _).sublist (List.take_sublist _ _)
    · intro s hs
      have hmem : s ∈ (fd.hours.map (normalizeHour fd.tideConds)).filterMap
          (scoreSlot? m) :=
        mem_sortSlots.mp (List.take_subset _ _ hs)
      rw [List.mem_filterMap] at hmem
      obtain ⟨h0, _, hsc⟩ := hmem
      exact scoreSlot?_props hsc
  · decide

/-- Witness for `C1_ranking_correct`: the environment serving the spec's two
example hours, with minimum 2.0 ft.  The ranking is the single slot of
score 48, for which every stated property is discharged concretely. -/
theorem C1_ranking_correct_witness :
    ((fun _ => .ok ⟨"malibu", (34.0259, -118.7798), [], none, false, 0⟩ : FetchEnv) none =
      .ok ⟨"malibu", (34.0259, -118.7798), [], none, false, 0⟩) ∧
      ∃ r, get_best_surf_times
          (fun _ => .ok ⟨"malibu", (34.0259, -118.7798), [], none, false, 0⟩) 2 none =
            .ok r ∧
        r.best_times.length = min 5 r.total_good_hours ∧
        List.Pairwise (fun a b => b.score ≤ a.score) r.best_times ∧
        ∀ s ∈ r.best_times,
          (2 : ℚ) ≤ s.wave_height.getD 0 ∧
            s.score = min 30 (s.wave_height.getD 0 * 10) +
              max 0 (20 - s.wind_speed.getD 0) := by
  exact ⟨rfl, C1_ranking_correct.1
    (fun _ => .ok ⟨"malibu", (34.0259, -118.7798), [], none, false, 0⟩)
    ⟨"malibu", (34.0259, -118.7798), [], none, false, 0⟩ 2 none rfl⟩

end WaveWatch
